import Mathlib

/-
Verification of the ACCRO streaming detection pipeline (LlamaCon Hackathon 2025).

Shallow embedding of the repository:
 * the frontend configuration handlers and the event-log query come from
   src/frontend/app/page.tsx and src/frontend/app/event-logs/data.ts;
 * the backend pipeline (Stream Chunker, Event Detector, Event Recorder,
   Pipeline Controller) is declared only through its README and the spec,
   so those parts are modelled from the spec, as marked on each definition.
-/

namespace Accro

/-! ## Data model -/

/-- An event definition as carried in the POST start body
(`src/backend/README.md`): `{event_code, event_description, detection_guidelines}`. -/
structure EventDefinition where
  event_code : String
  event_description : String
  detection_guidelines : String
deriving DecidableEq, Repr

/-- The POST start request body (`src/backend/README.md`):
`{model, base_url, rtsp_url, chunk_duration, output_dir, context, events}`. -/
structure StartRequest where
  model : String
  base_url : String
  rtsp_url : String
  chunk_duration : Int
  output_dir : String
  context : String
  events : List EventDefinition
deriving DecidableEq, Repr

/-- Modelled from the spec: Pipeline Controller states
(idle, starting, running, stopping, degraded). -/
inductive PipelineState where
  | idle
  | starting
  | running
  | stopping
  | degraded
deriving DecidableEq, Repr

/-- Modelled from the spec: controller-owned pipeline instance with its
lifecycle state, the configuration of the current run, the status counters
and the last error. -/
structure Pipeline where
  state : PipelineState
  config : Option StartRequest
  chunks_processed : Nat
  chunks_dropped : Nat
  events_detected : Nat
  last_error : Option String
deriving DecidableEq, Repr

/-- Modelled from the spec: the two failure categories of `start` —
`AlreadyRunning` (409-equivalent) and invalid configuration (422-equivalent). -/
inductive StartError where
  | alreadyRunning
  | invalidConfig
deriving DecidableEq, Repr

/-- HTTP code equivalent of each start failure. -/
def StartError.httpCode : StartError → Nat
  | .alreadyRunning => 409
  | .invalidConfig => 422

/-! ## Pipeline Controller (modelled from the spec) -/

/-- Modelled from the spec: `start` validates the configuration —
non-empty definitions, unique event codes, positive chunk duration, and a
reachable output directory (the last is an external filesystem fact, passed
in as a boolean). -/
def validConfig (req : StartRequest) (outputReachable : Bool) : Prop :=
  req.events ≠ [] ∧
  (req.events.map (fun d => d.event_code)).Nodup ∧
  0 < req.chunk_duration ∧
  outputReachable = true

instance (req : StartRequest) (r : Bool) : Decidable (validConfig req r) := by
  unfold validConfig
  infer_instance

/-- Modelled from the spec: `start(StreamConfig, EventDefinition[])` is valid
only from `idle`; from any active state it fails with `AlreadyRunning` and has
no side effect; from `idle` with an invalid configuration it fails with the
422-equivalent error and the pipeline stays as it was; otherwise it brings up
the workers and queues and the pipeline ends up `running` with the new
configuration and fresh counters. The result pairs the (possibly updated)
pipeline with the error, if any. -/
def startStep (p : Pipeline) (req : StartRequest) (outputReachable : Bool) :
    Pipeline × Option StartError :=
  if p.state ≠ PipelineState.idle then
    (p, some StartError.alreadyRunning)
  else if validConfig req outputReachable then
    ({ state := PipelineState.running, config := some req,
       chunks_processed := 0, chunks_dropped := 0, events_detected := 0,
       last_error := none }, none)
  else
    (p, some StartError.invalidConfig)

/-- Modelled from the spec: `stop()` is valid from any state; from `idle` it is
a no-op success, otherwise it drains the workers and queues, drops the run
configuration and returns to `idle`. Counters and the last error survive for
inspection via `status`. -/
def stopStep (p : Pipeline) : Pipeline :=
  if p.state = PipelineState.idle then p
  else { p with state := PipelineState.idle, config := none }

/-- Modelled from the spec: `POST stop` returns 200 always. -/
def stopHTTP (p : Pipeline) : Pipeline × Nat :=
  (stopStep p, 200)

/-- Modelled from the spec: the GET status response shape
`{state, chunks_processed, chunks_dropped, events_detected, last_error}`. -/
structure StatusResponse where
  state : PipelineState
  chunks_processed : Nat
  chunks_dropped : Nat
  events_detected : Nat
  last_error : Option String
deriving DecidableEq, Repr

/-- Modelled from the spec: `status()` is a pure read available in any state,
reporting the current state, the counters and the last error. -/
def status (p : Pipeline) : StatusResponse :=
  { state := p.state,
    chunks_processed := p.chunks_processed,
    chunks_dropped := p.chunks_dropped,
    events_detected := p.events_detected,
    last_error := p.last_error }

/-! ## Event Detector (modelled from the spec) -/

/-- Modelled from the spec: a VideoChunk
`{file_path, sequence_number, start_time, duration}`. -/
structure VideoChunk where
  file_path : String
  sequence_number : Nat
  start_time : Nat
  duration : Nat
deriving DecidableEq, Repr

/-- Modelled from the spec: one entry of the structured per-definition verdict
returned by the model — an event code, a boolean match flag and a free-text
explanation. -/
structure ModelVerdict where
  code : String
  matched : Bool
  explanation : String
deriving DecidableEq, Repr

/-- Modelled from the spec: a DetectedEvent as created by the Event Detector —
the matched definition fields, the wall-clock detection time, a reference to
the source chunk and the explanation given by the model. -/
structure DetectedEvent where
  event_code : String
  event_description : String
  detection_guidelines : String
  event_timestamp : Nat
  source_chunk_path : String
  ai_explanation : String
deriving DecidableEq, Repr

/-- The verdict the response gives for a configured definition, if any:
defensive parsing looks the definition code up in the response, so a response
code that matches no configured definition is discarded. -/
def verdictFor (resp : List ModelVerdict) (d : EventDefinition) :
    Option ModelVerdict :=
  resp.find? (fun v => v.code == d.event_code)

/-- Whether the model judged a configured definition as matched: a definition
absent from the response counts as not matched, never as an error. -/
def judgedMatched (resp : List ModelVerdict) (d : EventDefinition) : Bool :=
  match verdictFor resp d with
  | some v => v.matched
  | none => false

/-- The DetectedEvent emitted for one matched definition, stamped with the
current wall-clock time and a reference to the source chunk. -/
def emitEvent (now : Nat) (chunk : VideoChunk) (d : EventDefinition)
    (v : ModelVerdict) : DetectedEvent :=
  { event_code := d.event_code,
    event_description := d.event_description,
    detection_guidelines := d.detection_guidelines,
    event_timestamp := now,
    source_chunk_path := chunk.file_path,
    ai_explanation := v.explanation }

/-- Modelled from the spec: the per-chunk step of the Event Detector. Given
the configured definitions and the parsed per-definition verdicts of the model
for one chunk, it emits one DetectedEvent for every definition judged as
matched and nothing for the others. -/
def detectEvents (defs : List EventDefinition) (resp : List ModelVerdict)
    (now : Nat) (chunk : VideoChunk) : List DetectedEvent :=
  defs.filterMap (fun d =>
    match verdictFor resp d with
    | some v => if v.matched then some (emitEvent now chunk d v) else none
    | none => none)

/-! ## Event Recorder (modelled from the spec) -/

/-- Number of persisted rows carrying a given
`(event_code, source_chunk_path)` key. -/
def keyCount (store : List DetectedEvent) (c chunkPath : String) : Nat :=
  store.countP (fun r => r.event_code == c && r.source_chunk_path == chunkPath)

/-- Modelled from the spec: one Event Recorder write. Writes are idempotent
with respect to `(event_code, source_chunk_path)`: an event whose key is
already persisted is not written again. -/
def recordEvent (store : List DetectedEvent) (e : DetectedEvent) :
    List DetectedEvent :=
  if store.any (fun r =>
      r.event_code == e.event_code &&
      r.source_chunk_path == e.source_chunk_path) then
    store
  else
    store ++ [e]

/-- Delivering the same DetectedEvent to the Recorder `n` times
(at-least-once delivery upstream). -/
def deliverTimes : Nat → List DetectedEvent → DetectedEvent → List DetectedEvent
  | 0, store, _ => store
  | n + 1, store, e => deliverTimes n (recordEvent store e) e

/-! ## Frontend configuration handlers (src/frontend/app/page.tsx) -/

/-- The event form value of the configuration wizard
(`EventToDetect` in src/frontend/app/page.tsx). -/
structure EventToDetect where
  code : String
  description : String
  guidelines : String
deriving DecidableEq, Repr

/-- `handleAddEvent` (src/frontend/app/page.tsx, lines 214-235): the submitted
event is accepted when its code, description and guidelines are all non-empty
(JavaScript string truthiness); in editing mode it replaces the entry at the
edited index, otherwise it is appended to the configured list. No other check
is made. -/
def handleAddEvent (editing : Option Nat) (events : List EventToDetect)
    (newEvent : EventToDetect) : List EventToDetect :=
  if newEvent.code ≠ "" ∧ newEvent.description ≠ "" ∧ newEvent.guidelines ≠ "" then
    match editing with
    | some i => events.set i newEvent
    | none => events ++ [newEvent]
  else
    events

/-- The inline add/update handler of the re-configure panel
(src/frontend/app/page.tsx, lines 976-1008): identical to `handleAddEvent`
except that it only requires code and description to be non-empty — the
guidelines field is not checked. -/
def configAddEvent (editing : Option Nat) (events : List EventToDetect)
    (newEvent : EventToDetect) : List EventToDetect :=
  if newEvent.code ≠ "" ∧ newEvent.description ≠ "" then
    match editing with
    | some i => events.set i newEvent
    | none => events ++ [newEvent]
  else
    events

/-! ## Event-log read side (src/frontend/app/event-logs/data.ts) -/

/-- `DataItem` (src/frontend/app/event-logs/data.ts, lines 5-12): the row
shape of the read-only event-retrieval interface. -/
structure DataItem where
  event_id : Int
  event_timestamp : String
  event_code : String
  event_description : String
  event_video_url : String
  event_detection_explanation_by_ai : String
deriving DecidableEq, Repr

/-- Modelled from the spec: the Event Recorder write schema, which must match
the read shape `DataItem` exactly since the dashboard reads it directly. -/
structure RecorderRow where
  event_id : Int
  event_timestamp : String
  event_code : String
  event_description : String
  event_video_url : String
  event_detection_explanation_by_ai : String
deriving DecidableEq, Repr

/-- The field-for-field reading of a Recorder row as a dashboard row. -/
def itemOfRow (r : RecorderRow) : DataItem :=
  { event_id := r.event_id,
    event_timestamp := r.event_timestamp,
    event_code := r.event_code,
    event_description := r.event_description,
    event_video_url := r.event_video_url,
    event_detection_explanation_by_ai := r.event_detection_explanation_by_ai }

/-- The field-for-field writing of a dashboard row as a Recorder row. -/
def rowOfItem (d : DataItem) : RecorderRow :=
  { event_id := d.event_id,
    event_timestamp := d.event_timestamp,
    event_code := d.event_code,
    event_description := d.event_description,
    event_video_url := d.event_video_url,
    event_detection_explanation_by_ai := d.event_detection_explanation_by_ai }

/-- The state of the external event store as seen by `fetchData`: the
`event_logs` table, and whether the database call succeeds (the serverless
driver may throw, which `fetchData` catches). -/
structure EventStore where
  table : List DataItem
  available : Bool
  errorMessage : String

/-- The query `SELECT * FROM event_logs LIMIT 100` issued by `fetchData`
(src/frontend/app/event-logs/data.ts, line 16): on success the SQL LIMIT
clause returns at most the first 100 rows of the table; on failure the driver
raises an error. -/
def eventLogsQuery (db : EventStore) : Except String (List DataItem) :=
  if db.available then Except.ok (db.table.take 100)
  else Except.error db.errorMessage

/-- `fetchData` (src/frontend/app/event-logs/data.ts, lines 14-22): returns
the query rows, and catches any query error, returning the empty list. -/
def fetchData (db : EventStore) : List DataItem :=
  match eventLogsQuery db with
  | Except.ok rows => rows
  | Except.error _ => []

/-! ## Sample values used by the witnesses -/

/-- The robot-is-idle definition of the scenario of the spec. -/
def sampleIdleDef : EventDefinition :=
  { event_code := "robot-is-idle",
    event_description := "arm static",
    detection_guidelines := "green light on" }

/-- The robot-in-error definition of the scenario of the spec. -/
def sampleErrorDef : EventDefinition :=
  { event_code := "robot-in-error",
    event_description := "error state",
    detection_guidelines := "red light on" }

/-- The scenario definitions of the spec: robot-is-idle and robot-in-error. -/
def sampleDefs : List EventDefinition :=
  [sampleIdleDef, sampleErrorDef]

/-- A model response confirming only robot-is-idle. -/
def sampleResp : List ModelVerdict :=
  [{ code := "robot-is-idle", matched := true, explanation := "arm never moved" },
   { code := "robot-in-error", matched := false, explanation := "no red light" }]

/-- A sample chunk. -/
def sampleChunk : VideoChunk :=
  { file_path := "chunk_000001.mp4", sequence_number := 1,
    start_time := 0, duration := 5 }

/-- A sample detected event. -/
def sampleEvent : DetectedEvent :=
  { event_code := "robot-is-idle",
    event_description := "arm static",
    detection_guidelines := "green light on",
    event_timestamp := 42,
    source_chunk_path := "chunk_000001.mp4",
    ai_explanation := "arm never moved" }

/-- An idle pipeline. -/
def pIdle : Pipeline :=
  { state := PipelineState.idle, config := none,
    chunks_processed := 0, chunks_dropped := 0, events_detected := 0,
    last_error := none }

/-- A sample start request following the backend README example. -/
def sampleReq : StartRequest :=
  { model := "Llama-4-Maverick-17B-128E-Instruct-FP8",
    base_url := "https://api.llama.com/compat/v1/",
    rtsp_url := "rtsp://localhost:8554/hackathon",
    chunk_duration := 5,
    output_dir := "../localdata/video_chunks",
    context := "robotic arm",
    events := sampleDefs }

/-- A running pipeline. -/
def pRun : Pipeline :=
  { state := PipelineState.running, config := some sampleReq,
    chunks_processed := 3, chunks_dropped := 1, events_detected := 2,
    last_error := none }

/-- A start request with an empty definition list. -/
def badReq : StartRequest :=
  { sampleReq with events := [] }

/-- The default robot-is-idle form entry of the wizard. -/
def defIdle : EventToDetect :=
  { code := "robot-is-idle", description := "arm static",
    guidelines := "green light on" }

/-- A second form entry reusing the code robot-is-idle. -/
def defIdleDup : EventToDetect :=
  { code := "robot-is-idle", description := "idle again",
    guidelines := "still green" }

/-- A form entry whose guidelines are empty. -/
def defNoGuide : EventToDetect :=
  { code := "door-open", description := "door", guidelines := "" }

/-! ## Theorems -/

/-- Counting emitted events by code equals counting matched definitions by
code. -/
theorem detectEvents_countP (defs : List EventDefinition)
    (resp : List ModelVerdict) (now : Nat) (chunk : VideoChunk) (c : String) :
    (detectEvents defs resp now chunk).countP (fun e => e.event_code == c) =
      defs.countP (fun d => judgedMatched resp d && d.event_code == c) := by
  induction defs with
  | nil => rfl
  | cons d ds ih =>
    unfold detectEvents at ih ⊢
    rw [List.filterMap_cons, List.countP_cons]
    cases hv : verdictFor resp d with
    | none =>
      have hj : judgedMatched resp d = false := by
        unfold judgedMatched
        rw [hv]
      simp only [hv]
      rw [ih, hj]
      simp
    | some v =>
      cases hm : v.matched with
      | false =>
        have hj : judgedMatched resp d = false := by
          unfold judgedMatched
          rw [hv]
          exact hm
        simp only [hv, hm, Bool.false_eq_true, if_false]
        rw [ih, hj]
        simp
      | true =>
        have hj : judgedMatched resp d = true := by
          unfold judgedMatched
          rw [hv]
          exact hm
        simp only [hv, hm, if_true, List.countP_cons]
        rw [ih, hj]
        simp [emitEvent]

/-- Among definitions with pairwise distinct codes, the number of matched
definitions sharing the code of a configured definition is one when that
definition is judged matched and zero otherwise. -/
theorem countP_matched_of_nodup (resp : List ModelVerdict) :
    ∀ l : List EventDefinition,
      (l.map (fun d => d.event_code)).Nodup →
      ∀ d ∈ l,
        l.countP (fun x => judgedMatched resp x && x.event_code == d.event_code)
          = if judgedMatched resp d then 1 else 0 := by
  intro l
  induction l with
  | nil => intro _ d hd; cases hd
  | cons x xs ih =>
    intro hnodup d hd
    rw [List.map_cons, List.nodup_cons] at hnodup
    obtain ⟨hx, hxs⟩ := hnodup
    rw [List.countP_cons]
    rcases List.mem_cons.mp hd with rfl | hd
    · have hzero :
          xs.countP (fun y => judgedMatched resp y && y.event_code == d.event_code) = 0 := by
        rw [List.countP_eq_zero]
        intro y hy
        have hne : y.event_code ≠ d.event_code := by
          intro he
          exact hx (he ▸ List.mem_map_of_mem (fun z => z.event_code) hy)
        simp [hne]
      simp [hzero]
    · have hne : x.event_code ≠ d.event_code := by
        intro he
        exact hx (he ▸ List.mem_map_of_mem (fun z => z.event_code) hd)
      rw [ih hxs d hd]
      simp [hne]

/-- Every emitted event is stamped with the given wall-clock time and source
chunk, and comes from a configured definition judged as matched. -/
theorem detectEvents_mem (defs : List EventDefinition)
    (resp : List ModelVerdict) (now : Nat) (chunk : VideoChunk) :
    ∀ e ∈ detectEvents defs resp now chunk,
      e.event_timestamp = now ∧ e.source_chunk_path = chunk.file_path ∧
      ∃ d, d ∈ defs ∧ e.event_code = d.event_code ∧
        judgedMatched resp d = true := by
  intro e he
  unfold detectEvents at he
  rw [List.mem_filterMap] at he
  obtain ⟨d, hd, hfd⟩ := he
  cases hv : verdictFor resp d with
  | none => simp [hv] at hfd
  | some v =>
    cases hm : v.matched with
    | false => simp [hv, hm] at hfd
    | true =>
      simp only [hv, hm, if_true] at hfd
      obtain rfl := Option.some.inj hfd
      refine ⟨rfl, rfl, d, hd, rfl, ?_⟩
      unfold judgedMatched
      rw [hv]
      exact hm

/-- C1: for every processed chunk, the Event Detector emits exactly one
DetectedEvent per configured definition the model judges as matched — stamped
with the current wall-clock time and the source chunk path — and none for a
definition that is unmatched or absent from the response; no chunk yields more
than one verdict per definition, and every emitted event traces back to a
configured matched definition. -/
theorem detectEvents_one_per_matched (defs : List EventDefinition)
    (resp : List ModelVerdict) (now : Nat) (chunk : VideoChunk)
    (hnodup : (defs.map (fun d => d.event_code)).Nodup) :
    (∀ d ∈ defs,
      (detectEvents defs resp now chunk).countP
          (fun e => e.event_code == d.event_code)
        = if judgedMatched resp d then 1 else 0) ∧
    (∀ e ∈ detectEvents defs resp now chunk,
      e.event_timestamp = now ∧ e.source_chunk_path = chunk.file_path ∧
      ∃ d, d ∈ defs ∧ e.event_code = d.event_code ∧
        judgedMatched resp d = true) := by
  refine ⟨?_, detectEvents_mem defs resp now chunk⟩
  intro d hd
  rw [detectEvents_countP]
  exact countP_matched_of_nodup resp defs hnodup d hd

/-- Witness for C1, the scenario of the spec: two definitions, the model
confirms only robot-is-idle, and the chunk yields exactly one event with that
code and none with code robot-in-error. -/
theorem detectEvents_one_per_matched_witness :
    (sampleDefs.map (fun d => d.event_code)).Nodup ∧
    (detectEvents sampleDefs sampleResp 42 sampleChunk).countP
      (fun e => e.event_code == "robot-is-idle") = 1 ∧
    (detectEvents sampleDefs sampleResp 42 sampleChunk).countP
      (fun e => e.event_code == "robot-in-error") = 0 := by
  have h := detectEvents_one_per_matched sampleDefs sampleResp 42 sampleChunk
    (by decide)
  refine ⟨by decide, ?_, ?_⟩
  · exact (h.1 sampleIdleDef (by decide)).trans (by decide)
  · exact (h.1 sampleErrorDef (by decide)).trans (by decide)

/-- A write whose key is not yet persisted appends the event. -/
theorem recordEvent_of_absent (store : List DetectedEvent) (e : DetectedEvent)
    (h : keyCount store e.event_code e.source_chunk_path = 0) :
    recordEvent store e = store ++ [e] := by
  unfold recordEvent
  have hany : store.any (fun r =>
      r.event_code == e.event_code &&
      r.source_chunk_path == e.source_chunk_path) = false := by
    rw [List.any_eq_false]
    intro r hr
    have := List.countP_eq_zero.mp h r hr
    simpa using this
  simp [hany]

/-- A write whose key is already persisted leaves the store unchanged. -/
theorem recordEvent_of_present (store : List DetectedEvent) (e : DetectedEvent)
    (h : 0 < keyCount store e.event_code e.source_chunk_path) :
    recordEvent store e = store := by
  unfold recordEvent
  have hany : store.any (fun r =>
      r.event_code == e.event_code &&
      r.source_chunk_path == e.source_chunk_path) = true := by
    rw [List.any_eq_true]
    exact List.countP_pos_iff.mp h
  simp [hany]

/-- Appending an event adds one row under its own key. -/
theorem keyCount_append (store : List DetectedEvent) (e : DetectedEvent) :
    keyCount (store ++ [e]) e.event_code e.source_chunk_path =
      keyCount store e.event_code e.source_chunk_path + 1 := by
  unfold keyCount
  rw [List.countP_append]
  simp

/-- Once the key is persisted, any number of further deliveries of the same
event leaves the store unchanged. -/
theorem deliverTimes_of_present (e : DetectedEvent) :
    ∀ (n : Nat) (store : List DetectedEvent),
      0 < keyCount store e.event_code e.source_chunk_path →
      deliverTimes n store e = store := by
  intro n
  induction n with
  | zero => intro store _; rfl
  | succ n ih =>
    intro store h
    unfold deliverTimes
    rw [recordEvent_of_present store e h]
    exact ih store h

/-- C6: Event Recorder writes are idempotent keyed by
`(event_code, source_chunk_path)` — delivering a DetectedEvent whose key is
not yet persisted any number of times at least one yields exactly one
persisted row under that key. -/
theorem recordEvent_idempotent (store : List DetectedEvent)
    (e : DetectedEvent) (n : Nat) (hn : 1 ≤ n)
    (hfresh : keyCount store e.event_code e.source_chunk_path = 0) :
    keyCount (deliverTimes n store e) e.event_code e.source_chunk_path = 1 := by
  obtain ⟨m, rfl⟩ : ∃ m, n = m + 1 := ⟨n - 1, by omega⟩
  unfold deliverTimes
  rw [recordEvent_of_absent store e hfresh]
  rw [deliverTimes_of_present e m (store ++ [e])
    (by rw [keyCount_append, hfresh]; omega)]
  rw [keyCount_append, hfresh]

/-- Witness for C6: delivering a concrete event twice to an empty store yields
exactly one persisted row under its key. -/
theorem recordEvent_idempotent_witness :
    1 ≤ 2 ∧
    keyCount [] sampleEvent.event_code sampleEvent.source_chunk_path = 0 ∧
    keyCount (deliverTimes 2 [] sampleEvent)
      sampleEvent.event_code sampleEvent.source_chunk_path = 1 :=
  ⟨by decide, rfl, recordEvent_idempotent [] sampleEvent 2 (by decide) rfl⟩

/-- C2: for every pipeline state in starting or running, calling start fails
with AlreadyRunning (409-equivalent) and changes nothing: the pipeline value,
hence its workers, queues, configuration and counters, is returned untouched
and no restart is performed. -/
theorem startStep_alreadyRunning (p : Pipeline) (req : StartRequest) (r : Bool)
    (h : p.state = PipelineState.starting ∨ p.state = PipelineState.running) :
    startStep p req r = (p, some StartError.alreadyRunning) ∧
    StartError.httpCode StartError.alreadyRunning = 409 := by
  refine ⟨?_, rfl⟩
  unfold startStep
  rcases h with h | h <;> simp [h]

/-- Witness for C2: a second start on a concrete running pipeline fails with
AlreadyRunning and returns the pipeline unchanged. -/
theorem startStep_alreadyRunning_witness :
    (pRun.state = PipelineState.starting ∨ pRun.state = PipelineState.running) ∧
    startStep pRun sampleReq true = (pRun, some StartError.alreadyRunning) :=
  ⟨Or.inr rfl,
   (startStep_alreadyRunning pRun sampleReq true (Or.inr rfl)).1⟩

/-- C3: stop is idempotent — it succeeds with 200 in every pipeline state,
stopping an idle pipeline is a no-op that leaves it idle, and stop after stop
equals a single stop. -/
theorem stopStep_idempotent (p : Pipeline) :
    (p.state = PipelineState.idle → stopStep p = p) ∧
    stopStep (stopStep p) = stopStep p ∧
    (stopHTTP p).2 = 200 := by
  refine ⟨fun h => by simp [stopStep, h], ?_, rfl⟩
  by_cases h : p.state = PipelineState.idle <;> simp [stopStep, h]

/-- Witness for C3: stopping a concrete idle pipeline is a no-op and a second
stop changes nothing further. -/
theorem stopStep_idempotent_witness :
    pIdle.state = PipelineState.idle ∧
    stopStep pIdle = pIdle ∧
    stopStep (stopStep pIdle) = stopStep pIdle ∧
    (stopHTTP pIdle).2 = 200 :=
  ⟨rfl, (stopStep_idempotent pIdle).1 rfl, (stopStep_idempotent pIdle).2.1,
   (stopStep_idempotent pIdle).2.2⟩

/-- C4: start accepts a configuration only when the definition list is
non-empty, the event codes are unique, and the chunk duration is strictly
positive; for every configuration violating any of these, start from idle
fails with the 422-equivalent InvalidConfig error and the pipeline is returned
unchanged, still idle. -/
theorem startStep_validates (p : Pipeline) (req : StartRequest) (r : Bool) :
    ((startStep p req r).2 = none →
      req.events ≠ [] ∧
      (req.events.map (fun d => d.event_code)).Nodup ∧
      0 < req.chunk_duration) ∧
    (p.state = PipelineState.idle →
      ¬(req.events ≠ [] ∧
        (req.events.map (fun d => d.event_code)).Nodup ∧
        0 < req.chunk_duration) →
      startStep p req r = (p, some StartError.invalidConfig)) ∧
    StartError.httpCode StartError.invalidConfig = 422 := by
  refine ⟨?_, ?_, rfl⟩
  · intro hnone
    unfold startStep at hnone
    by_cases hs : p.state = PipelineState.idle
    · simp only [hs] at hnone
      by_cases hv : validConfig req r
      · exact ⟨hv.1, hv.2.1, hv.2.2.1⟩
      · simp [hv] at hnone
    · simp [hs] at hnone
  · intro hs hbad
    unfold startStep
    have hv : ¬validConfig req r := by
      intro hv
      exact hbad ⟨hv.1, hv.2.1, hv.2.2.1⟩
    simp [hs, hv]

/-- Witness for C4: starting a concrete idle pipeline with an empty definition
list fails with InvalidConfig and leaves the pipeline idle. -/
theorem startStep_validates_witness :
    pIdle.state = PipelineState.idle ∧
    startStep pIdle badReq true = (pIdle, some StartError.invalidConfig) ∧
    StartError.httpCode StartError.invalidConfig = 422 :=
  ⟨rfl,
   (startStep_validates pIdle badReq true).2.1 rfl (by
      intro hbad
      exact hbad.1 rfl),
   (startStep_validates pIdle badReq true).2.2⟩

/-- C7: status is a pure read available in every pipeline state; its result
has exactly the shape of StatusResponse, that is state, chunks processed,
chunks dropped, events detected and the last error, each equal to the value
currently held by the pipeline. -/
theorem status_shape (p : Pipeline) :
    (status p).state = p.state ∧
    (status p).chunks_processed = p.chunks_processed ∧
    (status p).chunks_dropped = p.chunks_dropped ∧
    (status p).events_detected = p.events_detected ∧
    (status p).last_error = p.last_error :=
  ⟨rfl, rfl, rfl, rfl, rfl⟩

/-- C8: the read schema DataItem and the Recorder write schema RecorderRow
match field for field (the two readings are mutually inverse), and fetchData
only ever returns rows of the stored table, hence rows of exactly that
shape. -/
theorem recorder_schema_matches (d : DataItem) (r : RecorderRow)
    (db : EventStore) :
    itemOfRow (rowOfItem d) = d ∧
    rowOfItem (itemOfRow r) = r ∧
    (fetchData db).Sublist db.table := by
  refine ⟨rfl, rfl, ?_⟩
  unfold fetchData eventLogsQuery
  by_cases h : db.available = true <;> simp [h, List.take_sublist]

/-- C9: fetchData returns at most 100 rows for every state of the event
store. -/
theorem fetchData_at_most_100 (db : EventStore) :
    (fetchData db).length ≤ 100 := by
  unfold fetchData eventLogsQuery
  by_cases h : db.available = true <;> simp [h]

/-- C10: fetchData is total with respect to store failures — when the
underlying query raises an error, fetchData returns the empty list instead of
propagating the exception. -/
theorem fetchData_empty_on_error (db : EventStore)
    (h : db.available = false) :
    fetchData db = [] := by
  unfold fetchData eventLogsQuery
  simp [h]

/-- Witness for C10: a concrete unavailable store makes fetchData return the
empty list. -/
theorem fetchData_empty_on_error_witness :
    ({ table := [rowOfItem ⟨1, "t", "c", "d", "u", "x"⟩].map itemOfRow,
       available := false, errorMessage := "connection refused" } :
      EventStore).available = false ∧
    fetchData { table := [rowOfItem ⟨1, "t", "c", "d", "u", "x"⟩].map itemOfRow,
                available := false, errorMessage := "connection refused" } = [] :=
  ⟨rfl,
   fetchData_empty_on_error
     { table := [rowOfItem ⟨1, "t", "c", "d", "u", "x"⟩].map itemOfRow,
       available := false, errorMessage := "connection refused" } rfl⟩

/-- C5, counterexample: the configuration layer in the source does not reject
a definition whose code duplicates an already configured one — handleAddEvent
appends it, so two entries with code robot-is-idle end up configured — and the
re-configure panel handler accepts a definition whose guidelines are empty. -/
theorem configLayer_counterexample :
    handleAddEvent none [defIdle] defIdleDup = [defIdle, defIdleDup] ∧
    (handleAddEvent none [defIdle] defIdleDup).countP
      (fun e => e.code == "robot-is-idle") = 2 ∧
    configAddEvent none [defIdle] defNoGuide = [defIdle, defNoGuide] := by
  decide

/-- C5, amended: the add-event form rejects a definition any of whose code,
description or guidelines fields is empty, leaving the configured list
unchanged; it makes no duplicate-code check, so a definition with all three
fields non-empty is appended regardless of its code; and the re-configure
panel handler checks only code and description, appending definitions whose
guidelines are empty. -/
theorem addEvent_rejects_empty_fields_only (editing : Option Nat)
    (events : List EventToDetect) (e : EventToDetect) :
    ((e.code = "" ∨ e.description = "" ∨ e.guidelines = "") →
      handleAddEvent editing events e = events) ∧
    (e.code ≠ "" → e.description ≠ "" → e.guidelines ≠ "" →
      handleAddEvent none events e = events ++ [e]) ∧
    (e.code ≠ "" → e.description ≠ "" →
      configAddEvent none events e = events ++ [e]) := by
  refine ⟨?_, ?_, ?_⟩
  · intro h
    unfold handleAddEvent
    rcases h with h | h | h <;> simp [h]
  · intro h1 h2 h3
    simp [handleAddEvent, h1, h2, h3]
  · intro h1 h2
    simp [configAddEvent, h1, h2]

/-- Witness for C5 amended: an entry with empty guidelines is rejected by the
add-event form but appended by the re-configure panel handler; an entry with
all fields filled is appended by the form even when its code is already
configured. -/
theorem addEvent_rejects_empty_fields_only_witness :
    handleAddEvent none [defIdle] defNoGuide = [defIdle] ∧
    configAddEvent none [defIdle] defNoGuide = [defIdle, defNoGuide] ∧
    handleAddEvent none [defIdle] defIdleDup = [defIdle, defIdleDup] :=
  ⟨(addEvent_rejects_empty_fields_only none [defIdle] defNoGuide).1
     (Or.inr (Or.inr rfl)),
   (addEvent_rejects_empty_fields_only none [defIdle] defNoGuide).2.2
     (by decide) (by decide),
   (addEvent_rejects_empty_fields_only none [defIdle] defIdleDup).2.1
     (by decide) (by decide) (by decide)⟩

end Accro
